import Mathlib

/-!
Verification development for the CSI breathing-rate analysis server
(`src/analysis/csi_processor.py`).  The signal-processing pipeline of
`CSIProcessor` is shallowly embedded below: pandas `DataFrame`s become
association-list tables, machine floats become exact rationals, the
random draws of the placeholder decoder become explicit oracle
functions on the input packet, numpy's `fftfreq` is embedded exactly,
and the irrational numeric kernels (the DFT magnitude `|np.fft.fft ...|`
and sklearn's normalised cosine product) are abstracted as function
parameters, since every property below is independent of their values.
Python exceptions are modelled with `Except`.
-/

/-- Errors raised by the embedded Python code.  The source raises plain
`ValueError` (unsupported channel width, pipeline-stage failures,
sklearn dimension mismatch) and pandas raises `KeyError` for a missing
column.  No other exception class appears in `csi_processor.py`. -/
inductive PyError where
  | valueError (msg : String)
  | keyError (msg : String)
deriving DecidableEq, Repr

/-- First-match association lookup, the behaviour of a Python dict /
pandas column access on our row representation. -/
def alookup {γ : Type} (k : String) : List (String × γ) → Option γ
  | [] => none
  | (k', v) :: r => if k' = k then some v else alookup k r

/-- A pandas DataFrame: an ordered list of column labels plus one
association list per row.  A label absent from a row is a NaN cell
(`alookup` returns `none`). -/
structure DataFrame (γ : Type) where
  cols : List String
  rows : List (List (String × γ))
deriving Repr

/-- Append a key at the end of the list unless it is already present
(one structural pass, so that concrete tables evaluate with shallow
recursion). -/
def insertKey : List String → String → List String
  | [], k => [k]
  | c :: rest, k => if c = k then c :: rest else c :: insertKey rest k

/-- `pandas.DataFrame(list_of_dicts)`: the column set is the union of
the record keys in first-seen order. -/
def unionKeys {γ : Type} (records : List (List (String × γ))) : List String :=
  records.foldl (fun acc r => r.foldl (fun acc2 p => insertKey acc2 p.1) acc) []

/-- Build a DataFrame from a list of records (`pd.DataFrame(df_data)`). -/
def dfOfRecords {γ : Type} (records : List (List (String × γ))) : DataFrame γ :=
  { cols := unionKeys records, rows := records }

/-- `df.drop(columns=names)`: the labels disappear from the column list
and their data is discarded. -/
def dropCols {γ : Type} (df : DataFrame γ) (names : List String) : DataFrame γ :=
  { cols := df.cols.filter (fun c => decide (c ∉ names)),
    rows := df.rows.map (fun r => r.filter (fun p => decide (p.1 ∉ names))) }

/-- `df[c]` as a positional list of cells; `none` is NaN. -/
def dfColumn {γ : Type} (df : DataFrame γ) (c : String) : List (Option γ) :=
  df.rows.map (fun r => alookup c r)

/-- `df.empty`: true when either axis has length zero. -/
def dfEmpty {γ : Type} (df : DataFrame γ) : Bool :=
  df.rows.isEmpty || df.cols.isEmpty

/-- Python `range(a, b + 1)`, the inclusive integer range of a guard band. -/
def intRange (a b : ℤ) : List ℤ :=
  (List.range (b + 1 - a).toNat).map (fun n => a + n)

/-- `col.lstrip('-').isdigit()`: the test the source uses to recognise a
subcarrier column label. -/
def isSubcarrierName (c : String) : Bool :=
  let t := c.toList.dropWhile (fun ch => ch == '-')
  !t.isEmpty && t.all Char.isDigit

/-- `Config.BREATHING_MIN_FREQ` (Python float `0.2`). -/
def BREATHING_MIN_FREQ : ℚ := 1/5

/-- `Config.BREATHING_MAX_FREQ` (Python float `0.33`). -/
def BREATHING_MAX_FREQ : ℚ := 33/100

/-- `Config.TOP_SUBCARRIERS`. -/
def TOP_SUBCARRIERS : ℕ := 5

/-- One entry of `Config.CHANNEL_CONFIGS`. -/
structure ChannelConfig where
  guard_bands : List (ℤ × ℤ)
  pilots : List ℤ
deriving Repr

/-- `Config.CHANNEL_CONFIGS` as a lookup keyed by the profile name. -/
def CHANNEL_CONFIGS (channel_width : String) : Option ChannelConfig :=
  if channel_width = "20MHz" then
    some { guard_bands := [(-32, -26), (27, 32)], pilots := [-21, -7, 7, 21] }
  else if channel_width = "80MHz" then
    some { guard_bands :=
             [(-122, -117), (-107, -102), (-92, -87), (-77, -72),
              (-62, -57), (-47, -42), (-32, -27), (-17, -12),
              (-2, 3), (12, 17), (27, 32), (42, 47),
              (57, 62), (72, 77), (87, 92), (102, 107),
              (117, 122)],
           pilots :=
             [-103, -75, -39, -11, -89, -61, -25, 3,
              -53, -17, 19, 55, 33, 69, 105, 119] }
  else none

/-- One decoded complex CSI value in the polar form the decoder draws it
in.  The source also stores `real = amplitude*cos(phase)` and
`imag = amplitude*sin(phase)`; those two are determined by this pair and
`np.abs(real + 1j*imag)` equals `|amplitude|` exactly, which is how the
pair is consumed downstream, so the redundant cartesian fields are not
carried separately. -/
structure CsiSample where
  amplitude : ℚ
  phase : ℚ
deriving DecidableEq, Repr

/-- The dict `_parse_csi_packet` returns: a wall-clock stamp and the
per-subcarrier samples keyed by `str(i)`. -/
structure CsiPacket where
  timestamp : ℚ
  subcarriers : List (String × CsiSample)
deriving Repr

/-- A cell value of the pipeline DataFrames: either a real scalar
(timestamps, amplitudes, frequencies, magnitudes) or a complex CSI
sample. -/
inductive Value where
  | num (x : ℚ)
  | cmplx (s : CsiSample)
deriving DecidableEq, Repr

/-- One captured packet together with the oracle values consumed while
handling it: `time` is the capture timestamp `packet.time`, `parseTime`
the `time.time()` call inside the decoder, and `amp`/`phase` the
`np.random.normal(1.0, 0.1)` / `np.random.uniform(0, 2*pi)` draws for
each subcarrier index.  A normal draw ranges over all reals; a uniform
draw lies in `[0, 2*pi)`. -/
structure Packet where
  isUDP : Bool
  hasRaw : Bool
  rawLen : ℕ
  time : ℚ
  parseTime : ℚ
  amp : ℤ → ℚ
  phase : ℤ → ℚ

/-- `_parse_csi_packet`: payloads shorter than 10 bytes are rejected;
otherwise one sample is synthesised for every index in `range(-64, 65)`
except the DC index 0. -/
def parse_csi_packet (p : Packet) : Option CsiPacket :=
  if p.rawLen < 10 then none
  else
    some { timestamp := p.parseTime,
           subcarriers :=
             ((intRange (-64) 64).filter (fun i => decide (i ≠ 0))).map
               (fun i => (toString i, { amplitude := p.amp i, phase := p.phase i })) }

/-- The loop body of `extract_csi_from_pcap` for one packet. -/
def extract_step (acc : List ℚ × List CsiPacket) (p : Packet) : List ℚ × List CsiPacket :=
  if p.isUDP then
    (acc.1 ++ [p.time],
     if p.hasRaw then
       match parse_csi_packet p with
       | some c => acc.2 ++ [c]
       | none => acc.2
     else acc.2)
  else acc

/-- `extract_csi_from_pcap`: every UDP packet contributes its timestamp;
only UDP packets with a Raw layer whose payload parses contribute a CSI
record. -/
def extract_csi_from_pcap (packets : List Packet) : List ℚ × List CsiPacket :=
  packets.foldl extract_step ([], [])

/-- The packets `extract_csi_from_pcap` collects timestamps for (the
frames of interest). -/
def udpFrames (packets : List Packet) : List Packet :=
  packets.filter (fun p => p.isUDP)

/-- Whether a frame of interest yields a decoded CSI record, and which. -/
def decodeOf (p : Packet) : Option CsiPacket :=
  if p.hasRaw then parse_csi_packet p else none

/-- `convert_csi_to_dataframe`: zip the full timestamp list with the
decoded records and build a DataFrame from the resulting dicts.  Returns
`none` only for an empty CSI list (the logged warning path). -/
def convert_csi_to_dataframe (timestamps : List ℚ) (csi_data : List CsiPacket) :
    Option (DataFrame Value) :=
  if csi_data.isEmpty then none
  else
    some (dfOfRecords
      ((timestamps.zip csi_data).map
        (fun tc =>
          ("timestamp", Value.num tc.1) ::
            tc.2.subcarriers.map (fun sv => (sv.1, Value.cmplx sv.2)))))

/-- The column labels `str(i)` of one inclusive guard-band range. -/
def rangeNames (se : ℤ × ℤ) : List String :=
  (intRange se.1 se.2).map toString

/-- The column labels `str(i)` of the pilot set of a profile. -/
def pilotNames (config : ChannelConfig) : List String :=
  config.pilots.map toString

/-- One `df.drop` call of `remove_unnecessary_subcarriers`: restrict the
candidate labels to those present in the frame and drop them (the `if`
mirrors the source's `if guard_cols:` / `if pilot_cols:` guards). -/
def drop_present_cols {γ : Type} (d : DataFrame γ) (names : List String) : DataFrame γ :=
  let present := names.filter (fun c => decide (c ∈ d.cols))
  if present.isEmpty then d else dropCols d present

/-- One guard-band iteration of `remove_unnecessary_subcarriers`: the
columns of the inclusive range that are present are dropped. -/
def guard_band_step {γ : Type} (d : DataFrame γ) (se : ℤ × ℤ) : DataFrame γ :=
  drop_present_cols d (rangeNames se)

/-- `remove_unnecessary_subcarriers`: raises `ValueError` for an unknown
profile, then drops each guard band in order and finally the pilot
columns. -/
def remove_unnecessary_subcarriers {γ : Type} (df : DataFrame γ) (channel_width : String) :
    Except PyError (DataFrame γ) :=
  match CHANNEL_CONFIGS channel_width with
  | none => .error (.valueError "Unsupported channel width")
  | some config =>
    let df1 := config.guard_bands.foldl guard_band_step df
    .ok (drop_present_cols df1 (pilotNames config))

/-- `np.abs` on a cell: the modulus of the complex sample
`a*cos(phi) + 1j*a*sin(phi)` is exactly `|a|`. -/
def absValue : Value → Value
  | .num x => .num |x|
  | .cmplx s => .num |s.amplitude|

/-- `preprocess_csi_data`: empty input gives `None`; the broad
`except` turns the unsupported-width `ValueError` into `None`; then every
subcarrier column is replaced by its amplitude. -/
def preprocess_csi_data (df : DataFrame Value) (channel_width : String) :
    Option (DataFrame Value) :=
  if dfEmpty df then none
  else
    match remove_unnecessary_subcarriers df channel_width with
    | .error _ => none
    | .ok df1 =>
      let subcarrier_cols :=
        df1.cols.filter (fun c => decide (c ≠ "timestamp") && isSubcarrierName c)
      some { cols := df1.cols,
             rows := df1.rows.map (fun r =>
               r.map (fun p =>
                 if decide (p.1 ∈ subcarrier_cols) then (p.1, absValue p.2) else p)) }

/-- `np.fft.fftfreq(n, d)`: index `k` carries frequency `k/(d*n)` for
`k <= (n-1)//2` and `(k-n)/(d*n)` beyond. -/
def fftfreq (n : ℕ) (d : ℚ) : List ℚ :=
  (List.range n).map (fun k =>
    if k ≤ (n - 1) / 2 then (k : ℚ) / (d * n) else ((k : ℚ) - n) / (d * n))

/-- `apply_fourier_transform`.  The per-column magnitude spectrum
`np.abs(np.fft.fft(signal))[k]` is abstracted as the parameter `dftMag`
(`none` standing for NaN); the frequency axis `np.fft.fftfreq(N, d=1.0/N)`
and the strictly-positive-frequency mask are embedded exactly.  Every
column of one DataFrame has the same length `N`, so either all columns
are skipped (`N < 2`, giving `None`) or none is, and the per-column
frames share one frequency index, which reduces the source's
`pd.concat(..., axis=1).reset_index()` to the direct construction
below. -/
def apply_fourier_transform (dftMag : List (Option Value) → ℕ → Option ℚ)
    (df : DataFrame Value) : Option (DataFrame Value) :=
  if dfEmpty df then none
  else
    let data_cols := df.cols.filter (fun c => decide (c ≠ "timestamp") && isSubcarrierName c)
    if data_cols.isEmpty then none
    else
      let N := df.rows.length
      if N < 2 then none
      else
        let xf := fftfreq N (1 / (N : ℚ))
        let ks := (List.range N).filter (fun k => decide (0 < xf.getD k 0))
        some { cols := "frequency" :: data_cols,
               rows := ks.map (fun k =>
                 ("frequency", Value.num (xf.getD k 0)) ::
                   data_cols.foldr (fun c acc =>
                     match dftMag (dfColumn df c) k with
                     | some m => (c, Value.num m) :: acc
                     | none => acc) []) }

/-- `sklearn.metrics.pairwise.cosine_similarity` on two row vectors:
sklearn validates that both inputs have the same feature dimension and
raises `ValueError` otherwise; the normalised-dot-product value itself
is irrational in general and is abstracted as the `kernel` parameter. -/
def sklearn_cosine_similarity (kernel : List (Option Value) → List (Option Value) → ℚ)
    (x y : List (Option Value)) : Except PyError ℚ :=
  if x.length = y.length then .ok (kernel x y)
  else .error (.valueError "Incompatible dimension for X and Y matrices")

/-- One iteration of the similarity loop: a column shared with the
baseline is scored (sklearn may raise), any other column is skipped. -/
def similarity_step (kernel : List (Option Value) → List (Option Value) → ℚ)
    (current_fft baseline_fft : DataFrame Value)
    (sims : List (String × ℚ)) (col : String) : Except PyError (List (String × ℚ)) :=
  if decide (col ∈ baseline_fft.cols) then do
    let s ← sklearn_cosine_similarity kernel
      (dfColumn current_fft col) (dfColumn baseline_fft col)
    pure (sims ++ [(col, s)])
  else pure sims

/-- `compute_similarity_and_select_subcarriers`: score every non-frequency
column of the current spectrum that also appears in the baseline, sort
ascending by score (Python `sorted` is stable) and keep the first
`TOP_SUBCARRIERS`.  The leading `is None` guard of the source is handled
by the caller, which only invokes this when a baseline was loaded. -/
def compute_similarity_and_select_subcarriers
    (kernel : List (Option Value) → List (Option Value) → ℚ)
    (current_fft baseline_fft : DataFrame Value) :
    Except PyError (List String × List (String × ℚ)) := do
  let data_cols := current_fft.cols.filter (fun c => decide (c ≠ "frequency"))
  let similarities ← data_cols.foldlM (similarity_step kernel current_fft baseline_fft)
    ([] : List (String × ℚ))
  let sorted_subcarriers := similarities.mergeSort (fun a b => decide (a.2 ≤ b.2))
  let selected_cols := (sorted_subcarriers.take TOP_SUBCARRIERS).map (fun p => p.1)
  .ok (selected_cols, similarities)

/-- Comparison on series cells with pandas NaN semantics: any comparison
involving NaN is false. -/
def oltB : Option ℚ → Option ℚ → Bool
  | some x, some y => decide (x < y)
  | _, _ => false

/-- Interior strict local maxima, the candidates of
`scipy.signal.find_peaks` (midpoints of flat plateaus are not modelled;
no property below depends on a plateau). -/
def localMaxima (xs : List (Option ℚ)) : List ℕ :=
  (List.range xs.length).filter (fun i =>
    decide (1 ≤ i) && decide (i + 1 < xs.length) &&
    oltB (xs.getD (i - 1) none) (xs.getD i none) &&
    oltB (xs.getD (i + 1) none) (xs.getD i none))

/-- The base of one side of a peak of height `h`: the minimum sample of
the interval extending from the peak to the first strictly higher sample
or the signal border (NaN cells are skipped). -/
def sideBase (h : ℚ) : List (Option ℚ) → Option ℚ
  | [] => none
  | none :: rest => sideBase h rest
  | some v :: rest =>
    if h < v then none
    else
      match sideBase h rest with
      | none => some v
      | some m => some (min v m)

/-- `scipy.signal.peak_prominences` for one peak: its height above the
higher of its two bases. -/
def prominenceAt (xs : List (Option ℚ)) (i : ℕ) : Option ℚ :=
  match xs.getD i none with
  | none => none
  | some h =>
    match sideBase h ((xs.take i).reverse), sideBase h (xs.drop (i + 1)) with
    | some l, some r => some (h - max l r)
    | some l, none => some (h - l)
    | none, some r => some (h - r)
    | none, none => none

/-- `scipy.signal.find_peaks(xs, prominence=pmin)`: local maxima whose
prominence reaches the threshold. -/
def find_peaks (xs : List (Option ℚ)) (pmin : ℚ) : List ℕ :=
  (localMaxima xs).filter (fun i =>
    match prominenceAt xs i with
    | some p => decide (pmin ≤ p)
    | none => false)

/-- `pandas.Series.argmax`: position of the first occurrence of the
largest non-NaN value (0 for an all-NaN series, matching the source's
reachable uses where a maximum exists). -/
def seriesArgmax (xs : List (Option ℚ)) : ℕ :=
  (((List.range xs.length).zip xs).foldl
    (fun best p =>
      match best, p with
      | none, (i, some v) => some (i, v)
      | some (bi, bv), (i, some v) => if bv < v then some (i, v) else some (bi, bv)
      | b, (_, none) => b)
    none).map Prod.fst |>.getD 0

/-- `df[selected_cols].mean(axis=1)` for one row: NaN cells are skipped;
an all-NaN selection yields NaN. -/
def rowMean (selected : List String) (r : List (String × Value)) : Option ℚ :=
  let vs := selected.filterMap (fun c =>
    match alookup c r with
    | some (.num x) => some x
    | _ => none)
  if vs.isEmpty then none else some (vs.foldl (· + ·) 0 / (vs.length : ℚ))

/-- Boolean-mask selection on a positional series, the semantics of
`series[mask]` followed by positional `iloc`. -/
def maskFilter {α : Type} (xs : List α) (mask : List Bool) : List α :=
  ((xs.zip mask).filter (fun p => p.2)).map (fun p => p.1)

/-- Numeric view of a cell; non-numeric or missing cells are NaN. -/
def valueToQ : Option Value → Option ℚ
  | some (.num x) => some x
  | _ => none

/-- `find_peak_spectrum`: an empty selection (or, at the call sites, a
missing spectrum) short-circuits to the all-`None` triple; columns
absent from the frame would raise pandas `KeyError`; otherwise average
the selected spectra, mask the breathing band, find prominent peaks and
return (frequency, height, rate in bpm) of the tallest one, ties going
to the earliest (lowest-frequency) peak. -/
def find_peak_spectrum (fft_df : DataFrame Value) (selected_cols : List String) :
    Except PyError (Option ℚ × Option ℚ × Option ℚ) :=
  if selected_cols.isEmpty then .ok (none, none, none)
  else if !(selected_cols.all (fun c => decide (c ∈ fft_df.cols))) then
    .error (.keyError "column not found")
  else
    let avg_spectrum := fft_df.rows.map (fun r => rowMean selected_cols r)
    let freqs := (dfColumn fft_df "frequency").map valueToQ
    let breathing_mask := freqs.map (fun f =>
      match f with
      | some x => decide (BREATHING_MIN_FREQ ≤ x) && decide (x ≤ BREATHING_MAX_FREQ)
      | none => false)
    let breathing_range := maskFilter avg_spectrum breathing_mask
    let breathing_freqs := maskFilter freqs breathing_mask
    if breathing_range.isEmpty then .ok (none, none, none)
    else
      let peaks := find_peaks breathing_range (1/10)
      if peaks.isEmpty then .ok (none, none, none)
      else
        let peak_freqs := peaks.map (fun i => breathing_freqs.getD i none)
        let peak_heights := peaks.map (fun i => breathing_range.getD i none)
        let dominant_peak_idx := seriesArgmax peak_heights
        let peak_freq := (peak_freqs.getD dominant_peak_idx none).getD 0
        let peak_height := (peak_heights.getD dominant_peak_idx none).getD 0
        .ok (some peak_freq, some peak_height, some (peak_freq * 60))

/-- The run metadata dict (`CSIDataMetadata`), including the
hardware-selected subcarrier list the client may attach. -/
structure Metadata where
  device_id : Option String := none
  timestamp : Option ℚ := none
  collection_duration : Option ℚ := none
  channel_width : Option String := none
  location : Option String := none
  selected_subcarriers : Option (List String) := none

/-- The result dict `process_csi_file` builds (the wall-clock
`processed_at` provenance string is omitted; `now` models the
`int(time.time())` default for a missing metadata timestamp). -/
structure AnalysisResult where
  device_id : String
  timestamp : ℚ
  collection_duration : ℚ
  channel_width : String
  location : String
  breathing_rate : ℚ
  peak_frequency : ℚ
  peak_height : ℚ
  selected_subcarriers : List String
  similarities : List (String × ℚ)
  packet_count : ℕ
  csi_data_count : ℕ
deriving Repr

/-- `process_csi_file` up to subcarrier selection: extraction,
conversion, preprocessing, Fourier transform (each empty/failed stage
raising `ValueError`), then the selection block of lines 360-368 — top-5
similarity ranking when a baseline was loaded, falling back to every
non-frequency column when the selection is empty.  The file-system read
of the latest baseline JSON is abstracted to its result
`baseline_fft`. -/
def pipelineToSelection (kernel : List (Option Value) → List (Option Value) → ℚ)
    (dftMag : List (Option Value) → ℕ → Option ℚ)
    (packets : List Packet) (baseline_fft : Option (DataFrame Value)) (metadata : Metadata) :
    Except PyError (List ℚ × List CsiPacket × DataFrame Value × List String × List (String × ℚ)) :=
  let ts_csi := extract_csi_from_pcap packets
  if ts_csi.2.isEmpty then .error (.valueError "no CSI data extracted from PCAP") else
  match convert_csi_to_dataframe ts_csi.1 ts_csi.2 with
  | none => .error (.valueError "DataFrame conversion failed")
  | some df0 =>
  if dfEmpty df0 then .error (.valueError "DataFrame conversion failed") else
  match preprocess_csi_data df0 (metadata.channel_width.getD "80MHz") with
  | none => .error (.valueError "preprocessing failed")
  | some df1 =>
  if dfEmpty df1 then .error (.valueError "preprocessing failed") else
  match apply_fourier_transform dftMag df1 with
  | none => .error (.valueError "Fourier transform failed")
  | some fft_df =>
  if dfEmpty fft_df then .error (.valueError "Fourier transform failed") else
  match (match baseline_fft with
         | some b => compute_similarity_and_select_subcarriers kernel fft_df b
         | none => .ok ([], [])) with
  | .error e => .error e
  | .ok sel_sims =>
    let selected_cols :=
      if sel_sims.1.isEmpty then fft_df.cols.filter (fun c => decide (c ≠ "frequency"))
      else sel_sims.1
    .ok (ts_csi.1, ts_csi.2, fft_df, selected_cols, sel_sims.2)

/-- `process_csi_file`: run the pipeline, detect the breathing peak and
assemble the result dict; a `None` in the peak triple becomes the float
`0.0` in the result (lines 380-382). -/
def process_csi_file (kernel : List (Option Value) → List (Option Value) → ℚ)
    (dftMag : List (Option Value) → ℕ → Option ℚ)
    (packets : List Packet) (baseline_fft : Option (DataFrame Value))
    (metadata : Metadata) (now : ℚ) :
    Except PyError AnalysisResult := do
  let (timestamps, csi_data, fft_df, selected_cols, similarities) ←
    pipelineToSelection kernel dftMag packets baseline_fft metadata
  let pks ← find_peak_spectrum fft_df selected_cols
  .ok { device_id := metadata.device_id.getD "unknown",
        timestamp := metadata.timestamp.getD now,
        collection_duration := metadata.collection_duration.getD 60,
        channel_width := metadata.channel_width.getD "80MHz",
        location := metadata.location.getD "unknown",
        breathing_rate := pks.2.2.getD 0,
        peak_frequency := pks.1.getD 0,
        peak_height := pks.2.1.getD 0,
        selected_subcarriers := selected_cols,
        similarities := similarities,
        packet_count := timestamps.length,
        csi_data_count := csi_data.length }

/-- Constant normal-draw oracle used by the concrete runs. -/
def sampleAmp : ℤ → ℚ := fun _ => 1

/-- Constant uniform-draw oracle used by the concrete runs. -/
def samplePhase : ℤ → ℚ := fun _ => 0

/-- A decodable frame of interest. -/
def samplePacket : Packet :=
  { isUDP := true, hasRaw := true, rawLen := 10, time := 0, parseTime := 0,
    amp := sampleAmp, phase := samplePhase }

/-- Three decodable frames, enough rows for a non-empty spectrum. -/
def samplePackets : List Packet :=
  [samplePacket, { samplePacket with time := 1 }, { samplePacket with time := 2 }]

/-- A trivial cosine kernel instantiation for concrete runs. -/
def kZero : List (Option Value) → List (Option Value) → ℚ := fun _ _ => 0

/-- A trivial DFT-magnitude instantiation for concrete runs. -/
def dmOne : List (Option Value) → ℕ → Option ℚ := fun _ _ => some 1

/-- The hardware-selected list of `test_changes.py`, case 1. -/
def hwList : List String := ["-45", "-23", "12", "34", "56"]

/-- Metadata carrying the hardware-selected subcarrier list. -/
def mdHw : Metadata := { channel_width := some "20MHz", selected_subcarriers := some hwList }


/-- A sample complex value for hand-built frames. -/
def sampleSample : CsiSample := { amplitude := 1, phase := 0 }

/-- Hand-built table for the filter witnesses: a timestamp column, one
guard-band column and one pilot column of the 20MHz profile, and one
data column. -/
def dfC5 : DataFrame ℚ :=
  { cols := ["timestamp", "-26", "7", "5"],
    rows := [[("timestamp", 0), ("-26", 1), ("7", 2), ("5", 3)]] }

/-- Hand-built amplitude table with a single data column and three rows. -/
def dfC3 : DataFrame Value :=
  { cols := ["1"],
    rows := [[("1", Value.num 1)], [("1", Value.num 2)], [("1", Value.num 3)]] }

/-- A decoded frame exposing only subcarrier column 1. -/
def csiP1 : CsiPacket := { timestamp := 0, subcarriers := [("1", sampleSample)] }

/-- A decoded frame exposing only subcarrier column 2. -/
def csiP2 : CsiPacket := { timestamp := 0, subcarriers := [("2", sampleSample)] }

/-- A payload of accepted length whose normal draw for subcarrier 1 is
negative (the support of `np.random.normal` is all of the reals). -/
def pktC6 : Packet :=
  { isUDP := true, hasRaw := true, rawLen := 10, time := 0, parseTime := 0,
    amp := fun i => if i = 1 then -(1/2) else 1, phase := fun _ => 0 }

/-- A current spectrum with two frequency bins and one data column. -/
def dfCur : DataFrame Value :=
  { cols := ["frequency", "1"],
    rows := [[("frequency", Value.num 1), ("1", Value.num 2)],
             [("frequency", Value.num 2), ("1", Value.num 3)]] }

/-- A baseline spectrum sharing column 1 but with only one bin. -/
def dfBasShort : DataFrame Value :=
  { cols := ["1"], rows := [[("1", Value.num 2)]] }

/-- A baseline spectrum sharing column 1 with a matching bin count. -/
def dfBasOk : DataFrame Value :=
  { cols := ["1"], rows := [[("1", Value.num 2)], [("1", Value.num 5)]] }

/-- A capture in which the second frame of interest is undecodable (its
payload is shorter than the decoder accepts) while the later one
decodes. -/
def pktsC9 : List Packet :=
  [samplePacket,
   { samplePacket with rawLen := 5, time := 1 },
   { samplePacket with time := 2 }]

theorem alookup_filter_not_mem {γ : Type} (c : String) (names : List String)
    (hc : c ∉ names) (r : List (String × γ)) :
    alookup c (r.filter (fun p => decide (p.1 ∉ names))) = alookup c r := by
  induction r with
  | nil => rfl
  | cons p r ih =>
    obtain ⟨k, v⟩ := p
    by_cases hk : k ∈ names
    · have hkc : k ≠ c := fun h => hc (h ▸ hk)
      simp only [List.filter_cons, decide_eq_true_eq]
      rw [if_neg (by simp [hk])]
      rw [ih, alookup, if_neg hkc]
    · simp only [List.filter_cons, decide_eq_true_eq]
      rw [if_pos (by simp [hk])]
      by_cases hkc : k = c
      · simp [alookup, hkc]
      · simp only [alookup, if_neg hkc]
        exact ih

theorem mem_dropCols {γ : Type} (df : DataFrame γ) (names : List String) (c : String) :
    c ∈ (dropCols df names).cols ↔ c ∈ df.cols ∧ c ∉ names := by
  simp [dropCols, List.mem_filter]

theorem dropCols_rows_length {γ : Type} (df : DataFrame γ) (names : List String) :
    (dropCols df names).rows.length = df.rows.length := by
  simp [dropCols]

theorem dropCols_column {γ : Type} (df : DataFrame γ) (names : List String) (c : String)
    (hc : c ∉ names) : dfColumn (dropCols df names) c = dfColumn df c := by
  simp only [dfColumn, dropCols, List.map_map]
  exact List.map_congr_left (fun r _ => alookup_filter_not_mem c names hc r)

theorem dropCols_cols_sublist {γ : Type} (df : DataFrame γ) (names : List String) :
    (dropCols df names).cols.Sublist df.cols := by
  simp only [dropCols]
  exact List.filter_sublist df.cols

theorem mem_drop_present_cols {γ : Type} (d : DataFrame γ) (names : List String) (c : String) :
    c ∈ (drop_present_cols d names).cols ↔ c ∈ d.cols ∧ c ∉ names := by
  unfold drop_present_cols
  by_cases he : (names.filter (fun c => decide (c ∈ d.cols))).isEmpty
  · rw [if_pos he]
    have hall : ∀ x ∈ names, x ∉ d.cols := by
      intro x hx hxd
      have := List.isEmpty_iff.mp he
      have hmem : x ∈ names.filter (fun c => decide (c ∈ d.cols)) :=
        List.mem_filter.mpr ⟨hx, by simpa using hxd⟩
      simp [this] at hmem
    constructor
    · intro h
      exact ⟨h, fun hn => hall c hn h⟩
    · intro h
      exact h.1
  · rw [if_neg he]
    rw [mem_dropCols]
    constructor
    · intro ⟨h1, h2⟩
      refine ⟨h1, fun hn => h2 ?_⟩
      exact List.mem_filter.mpr ⟨hn, by simpa using h1⟩
    · intro ⟨h1, h2⟩
      refine ⟨h1, fun hn => ?_⟩
      exact h2 (List.mem_filter.mp hn).1

theorem drop_present_cols_rows_length {γ : Type} (d : DataFrame γ) (names : List String) :
    (drop_present_cols d names).rows.length = d.rows.length := by
  unfold drop_present_cols
  by_cases he : (names.filter (fun c => decide (c ∈ d.cols))).isEmpty
  · rw [if_pos he]
  · rw [if_neg he]
    exact dropCols_rows_length d _

theorem drop_present_cols_column {γ : Type} (d : DataFrame γ) (names : List String) (c : String)
    (hc : c ∈ (drop_present_cols d names).cols) :
    dfColumn (drop_present_cols d names) c = dfColumn d c := by
  have hnot : c ∉ names := ((mem_drop_present_cols d names c).mp hc).2
  unfold drop_present_cols
  by_cases he : (names.filter (fun c => decide (c ∈ d.cols))).isEmpty
  · rw [if_pos he]
  · rw [if_neg he]
    refine dropCols_column d _ c (fun hmem => hnot ?_)
    exact (List.mem_filter.mp hmem).1

theorem drop_present_cols_sublist {γ : Type} (d : DataFrame γ) (names : List String) :
    (drop_present_cols d names).cols.Sublist d.cols := by
  unfold drop_present_cols
  by_cases he : (names.filter (fun c => decide (c ∈ d.cols))).isEmpty
  · rw [if_pos he]
  · rw [if_neg he]
    exact dropCols_cols_sublist d _

theorem drop_present_cols_absent {γ : Type} (d : DataFrame γ) (names : List String)
    (h : ∀ x ∈ names, x ∉ d.cols) : drop_present_cols d names = d := by
  unfold drop_present_cols
  have he : names.filter (fun c => decide (c ∈ d.cols)) = [] := by
    rw [List.filter_eq_nil_iff]
    intro a ha
    simpa using h a ha
  rw [he]
  rfl

theorem guard_fold_cols_mem {γ : Type} (ranges : List (ℤ × ℤ)) (d : DataFrame γ) (c : String) :
    c ∈ (ranges.foldl guard_band_step d).cols ↔
      c ∈ d.cols ∧ ∀ se ∈ ranges, c ∉ rangeNames se := by
  induction ranges generalizing d with
  | nil => simp
  | cons se rest ih =>
    rw [List.foldl_cons, ih, guard_band_step, mem_drop_present_cols]
    constructor
    · intro ⟨⟨h1, h2⟩, h3⟩
      exact ⟨h1, by
        intro se' hse'
        rcases List.mem_cons.mp hse' with h | h
        · exact h ▸ h2
        · exact h3 se' h⟩
    · intro ⟨h1, h2⟩
      exact ⟨⟨h1, h2 se (List.mem_cons_self se rest)⟩,
        fun se' hse' => h2 se' (List.mem_cons_of_mem se hse')⟩

theorem guard_fold_rows_length {γ : Type} (ranges : List (ℤ × ℤ)) (d : DataFrame γ) :
    (ranges.foldl guard_band_step d).rows.length = d.rows.length := by
  induction ranges generalizing d with
  | nil => rfl
  | cons se rest ih =>
    rw [List.foldl_cons, ih, guard_band_step, drop_present_cols_rows_length]

theorem guard_fold_cols_sublist {γ : Type} (ranges : List (ℤ × ℤ)) (d : DataFrame γ) :
    (ranges.foldl guard_band_step d).cols.Sublist d.cols := by
  induction ranges generalizing d with
  | nil => exact List.Sublist.refl _
  | cons se rest ih =>
    rw [List.foldl_cons]
    exact (ih _).trans (drop_present_cols_sublist d (rangeNames se))

theorem guard_fold_column {γ : Type} (ranges : List (ℤ × ℤ)) (d : DataFrame γ) (c : String)
    (hc : c ∈ (ranges.foldl guard_band_step d).cols) :
    dfColumn (ranges.foldl guard_band_step d) c = dfColumn d c := by
  induction ranges generalizing d with
  | nil => rfl
  | cons se rest ih =>
    rw [List.foldl_cons] at hc ⊢
    rw [ih _ hc]
    have hmem : c ∈ (guard_band_step d se).cols := by
      have := (guard_fold_cols_mem rest (guard_band_step d se) c).mp hc
      exact this.1
    exact drop_present_cols_column d (rangeNames se) c hmem

theorem guard_fold_absent {γ : Type} (ranges : List (ℤ × ℤ)) (d : DataFrame γ)
    (h : ∀ se ∈ ranges, ∀ x ∈ rangeNames se, x ∉ d.cols) :
    ranges.foldl guard_band_step d = d := by
  induction ranges generalizing d with
  | nil => rfl
  | cons se rest ih =>
    rw [List.foldl_cons, guard_band_step,
      drop_present_cols_absent d _ (h se (List.mem_cons_self se rest))]
    exact ih d (fun se' hse' => h se' (List.mem_cons_of_mem se hse'))

theorem remove_unnecessary_subcarriers_ok {γ : Type} (df : DataFrame γ)
    (channel_width : String) (config : ChannelConfig)
    (hw : CHANNEL_CONFIGS channel_width = some config) :
    remove_unnecessary_subcarriers df channel_width =
      .ok (drop_present_cols (config.guard_bands.foldl guard_band_step df)
            (pilotNames config)) := by
  rw [remove_unnecessary_subcarriers, hw]

theorem remove_cols_mem {γ : Type} (df : DataFrame γ) (channel_width : String)
    (config : ChannelConfig) (hw : CHANNEL_CONFIGS channel_width = some config)
    (out : DataFrame γ) (hout : remove_unnecessary_subcarriers df channel_width = .ok out)
    (c : String) :
    c ∈ out.cols ↔
      c ∈ df.cols ∧ (∀ se ∈ config.guard_bands, c ∉ rangeNames se) ∧ c ∉ pilotNames config := by
  rw [remove_unnecessary_subcarriers_ok df channel_width config hw] at hout
  cases hout
  rw [mem_drop_present_cols, guard_fold_cols_mem]
  constructor
  · intro ⟨⟨h1, h2⟩, h3⟩
    exact ⟨h1, h2, h3⟩
  · intro ⟨h1, h2, h3⟩
    exact ⟨⟨h1, h2⟩, h3⟩

theorem extract_foldl_eq (pkts : List Packet) :
    ∀ acc, pkts.foldl extract_step acc =
      (acc.1 ++ (udpFrames pkts).map (fun p => p.time),
       acc.2 ++ (udpFrames pkts).filterMap decodeOf) := by
  induction pkts with
  | nil => intro acc; simp [udpFrames]
  | cons p rest ih =>
    intro acc
    rw [List.foldl_cons, ih]
    by_cases hu : p.isUDP = true
    · have hud : udpFrames (p :: rest) = p :: udpFrames rest := by
        simp [udpFrames, List.filter_cons, hu]
      rw [hud]
      simp only [List.map_cons, List.filterMap_cons]
      unfold extract_step decodeOf
      rw [if_pos hu]
      by_cases hr : p.hasRaw = true
      · rw [if_pos hr, if_pos hr]
        cases hp : parse_csi_packet p with
        | some c => simp
        | none => simp
      · rw [if_neg hr, if_neg hr]
        simp
    · have hud : udpFrames (p :: rest) = udpFrames rest := by
        simp [udpFrames, List.filter_cons, hu]
      rw [hud]
      unfold extract_step
      rw [if_neg hu]

theorem extract_eq (pkts : List Packet) :
    extract_csi_from_pcap pkts =
      ((udpFrames pkts).map (fun p => p.time), (udpFrames pkts).filterMap decodeOf) := by
  rw [extract_csi_from_pcap, extract_foldl_eq]
  simp

theorem filterMap_get_source {α β : Type} (f : α → Option β) (l : List α) (i : ℕ)
    (hi : i < (l.filterMap f).length) :
    ∃ o, ∃ (ho : o < l.length),
      f (l.get ⟨o, ho⟩) = (l.filterMap f)[i]? ∧
      (l.take o).countP (fun a => (f a).isSome) = i ∧ i ≤ o := by
  induction l generalizing i with
  | nil => simp at hi
  | cons a t ih =>
    cases hfa : f a with
    | some b =>
      have hcons : (a :: t).filterMap f = b :: t.filterMap f := by
        simp [List.filterMap_cons, hfa]
      cases i with
      | zero =>
        refine ⟨0, by simp, ?_, by simp, by omega⟩
        rw [hcons]
        simpa using hfa
      | succ i =>
        have hi' : i < (t.filterMap f).length := by
          rw [hcons] at hi
          simpa using hi
        obtain ⟨o, ho, h1, h2, h3⟩ := ih i hi'
        refine ⟨o + 1, Nat.succ_lt_succ ho, ?_, ?_, by omega⟩
        · rw [hcons, List.getElem?_cons_succ]
          simpa using h1
        · simp [List.take_succ_cons, List.countP_cons, hfa, h2, Nat.add_comm]
    | none =>
      have hcons : (a :: t).filterMap f = t.filterMap f := by
        simp [List.filterMap_cons, hfa]
      have hi' : i < (t.filterMap f).length := by
        rw [hcons] at hi
        exact hi
      obtain ⟨o, ho, h1, h2, h3⟩ := ih i hi'
      refine ⟨o + 1, Nat.succ_lt_succ ho, ?_, ?_, by omega⟩
      · rw [hcons]
        simpa using h1
      · simp [List.take_succ_cons, List.countP_cons, hfa, h2]

theorem countP_take_eq_iff {α : Type} (p : α → Bool) (l : List α) (o i : ℕ)
    (ho : o < l.length) (hc : (l.take o).countP p = i) :
    (∀ j, (hj : j < o) → p (l.get ⟨j, Nat.lt_trans hj ho⟩)) ↔ i = o := by
  have hlen : (l.take o).length = o := by
    rw [List.length_take]
    omega
  constructor
  · intro hall
    have hcl : (l.take o).countP p = (l.take o).length := by
      rw [List.countP_eq_length]
      intro x hx
      obtain ⟨j, hj, hxj⟩ := List.mem_take_iff_getElem.mp hx
      have hjo : j < o := lt_of_lt_of_le hj inf_le_left
      rw [← hxj]
      have := hall j hjo
      simpa [List.get_eq_getElem] using this
    omega
  · intro hio2
    have hall : ∀ x ∈ l.take o, p x := by
      rw [← List.countP_eq_length]
      omega
    intro j hj
    have hmem : l[j] ∈ l.take o :=
      List.mem_take_iff_getElem.mpr ⟨j, by omega, rfl⟩
    simpa [List.get_eq_getElem] using hall _ hmem

theorem dfColumn_length {γ : Type} (df : DataFrame γ) (c : String) :
    (dfColumn df c).length = df.rows.length := by
  simp [dfColumn]

theorem similarity_fold_ok (kernel : List (Option Value) → List (Option Value) → ℚ)
    (cur bas : DataFrame Value) (h : cur.rows.length = bas.rows.length) :
    ∀ (cols : List String) (acc : List (String × ℚ)),
      cols.foldlM (similarity_step kernel cur bas) acc =
        .ok (acc ++ (cols.filter (fun c => decide (c ∈ bas.cols))).map
              (fun c => (c, kernel (dfColumn cur c) (dfColumn bas c)))) := by
  intro cols
  induction cols with
  | nil => intro acc; simp [List.foldlM_nil]; rfl
  | cons c rest ih =>
    intro acc
    rw [List.foldlM_cons]
    by_cases hc : c ∈ bas.cols
    · have hstep : similarity_step kernel cur bas acc c =
          .ok (acc ++ [(c, kernel (dfColumn cur c) (dfColumn bas c))]) := by
        unfold similarity_step
        rw [if_pos (by simpa using hc)]
        rw [sklearn_cosine_similarity, if_pos (by rw [dfColumn_length, dfColumn_length, h])]
        rfl
      rw [hstep]
      show rest.foldlM (similarity_step kernel cur bas) _ = _
      rw [ih]
      simp [List.filter_cons, hc]
    · have hstep : similarity_step kernel cur bas acc c = .ok acc := by
        unfold similarity_step
        rw [if_neg (by simpa using hc)]
        rfl
      rw [hstep]
      show rest.foldlM (similarity_step kernel cur bas) _ = _
      rw [ih]
      simp [List.filter_cons, hc]

theorem similarity_fold_error (kernel : List (Option Value) → List (Option Value) → ℚ)
    (cur bas : DataFrame Value) (h : cur.rows.length ≠ bas.rows.length) :
    ∀ (cols : List String) (acc : List (String × ℚ)),
      (∃ c ∈ cols, c ∈ bas.cols) →
      cols.foldlM (similarity_step kernel cur bas) acc =
        .error (.valueError "Incompatible dimension for X and Y matrices") := by
  intro cols
  induction cols with
  | nil => intro acc hex; simp at hex
  | cons c rest ih =>
    intro acc hex
    rw [List.foldlM_cons]
    by_cases hc : c ∈ bas.cols
    · have hstep : similarity_step kernel cur bas acc c =
          .error (.valueError "Incompatible dimension for X and Y matrices") := by
        unfold similarity_step
        rw [if_pos (by simpa using hc)]
        rw [sklearn_cosine_similarity,
          if_neg (by rw [dfColumn_length, dfColumn_length]; exact h)]
        rfl
      rw [hstep]
      rfl
    · have hstep : similarity_step kernel cur bas acc c = .ok acc := by
        unfold similarity_step
        rw [if_neg (by simpa using hc)]
        rfl
      rw [hstep]
      show rest.foldlM (similarity_step kernel cur bas) _ = _
      rcases hex with ⟨x, hx, hxb⟩
      rcases List.mem_cons.mp hx with rfl | hxr
      · exact absurd hxb hc
      · exact ih acc ⟨x, hxr, hxb⟩

theorem alookup_map_self (g : String → ℚ) (c : String) (cs : List String) (hc : c ∈ cs) :
    alookup c (cs.map (fun x => (x, g x))) = some (g c) := by
  induction cs with
  | nil => simp at hc
  | cons x rest ih =>
    rw [List.map_cons, alookup]
    by_cases hx : x = c
    · rw [if_pos hx, hx]
    · rw [if_neg hx]
      rcases List.mem_cons.mp hc with rfl | hcr
      · exact absurd rfl hx
      · exact ih hcr

/-- C8 (amended): invoking the peak estimator with an empty selected
list silently returns the all-unset triple, exactly the shape of the
"no peak found" outcome; no exception is raised (no `PrecheckError`
exists in the code). -/
theorem C8_empty_selection_amended (fft_df : DataFrame Value) :
    find_peak_spectrum fft_df [] = .ok (none, none, none) := by
  rfl

/-- C8 counterexample to the claim as stated: on a concrete spectrum an
empty selection produces the successful all-`None` triple rather than
raising any error. -/
theorem C8_empty_selection_returns_none_cex :
    find_peak_spectrum dfCur [] = .ok (none, none, none) ∧
    ∀ e : PyError, find_peak_spectrum dfCur [] ≠ .error e := by
  refine ⟨rfl, ?_⟩
  intro e h
  rw [show find_peak_spectrum dfCur [] = .ok (none, none, none) from rfl] at h
  exact Except.noConfusion h

/-- C5: for every supported channel-width profile the subcarrier filter
succeeds, is idempotent, and never increases the column count. -/
theorem C5_filter_idempotent {γ : Type} (df : DataFrame γ) (channel_width : String)
    (config : ChannelConfig) (hw : CHANNEL_CONFIGS channel_width = some config) :
    ∃ out, remove_unnecessary_subcarriers df channel_width = .ok out ∧
      remove_unnecessary_subcarriers out channel_width = .ok out ∧
      out.cols.length ≤ df.cols.length := by
  refine ⟨_, remove_unnecessary_subcarriers_ok df channel_width config hw, ?_, ?_⟩
  · have hmem : ∀ c ∈ (drop_present_cols (config.guard_bands.foldl guard_band_step df)
        (pilotNames config)).cols,
        (∀ se ∈ config.guard_bands, c ∉ rangeNames se) ∧ c ∉ pilotNames config := by
      intro c hc
      have h1 := (mem_drop_present_cols _ _ c).mp hc
      have h2 := (guard_fold_cols_mem config.guard_bands df c).mp h1.1
      exact ⟨h2.2, h1.2⟩
    rw [remove_unnecessary_subcarriers_ok _ channel_width config hw]
    rw [guard_fold_absent config.guard_bands _
      (fun se hse x hx hxout => (hmem x hxout).1 se hse hx)]
    rw [drop_present_cols_absent _ _ (fun x hx hxout => (hmem x hxout).2 hx)]
  · exact le_trans (drop_present_cols_sublist _ _).length_le
      (guard_fold_cols_sublist _ _).length_le

/-- C5 witness: the filter on a concrete 20MHz table. -/
theorem C5_witness :
    ∃ out, remove_unnecessary_subcarriers dfC5 "20MHz" = .ok out ∧
      remove_unnecessary_subcarriers out "20MHz" = .ok out ∧
      out.cols.length ≤ dfC5.cols.length :=
  C5_filter_idempotent dfC5 "20MHz"
    { guard_bands := [(-32, -26), (27, 32)], pilots := [-21, -7, 7, 21] } rfl

/-- C10: for every input table and supported profile the filter only
removes guard-band and pilot columns: surviving columns keep their
relative order and every cell value, the row count is unchanged, and
the timestamp column is never dropped. -/
theorem C10_filter_frame_effect {γ : Type} (df : DataFrame γ) (channel_width : String)
    (config : ChannelConfig) (hw : CHANNEL_CONFIGS channel_width = some config) :
    ∃ out, remove_unnecessary_subcarriers df channel_width = .ok out ∧
      out.cols.Sublist df.cols ∧
      out.rows.length = df.rows.length ∧
      (∀ c ∈ out.cols, dfColumn out c = dfColumn df c) ∧
      (∀ c ∈ df.cols, c ∉ out.cols →
        (∃ se ∈ config.guard_bands, c ∈ rangeNames se) ∨ c ∈ pilotNames config) ∧
      ("timestamp" ∈ df.cols → "timestamp" ∈ out.cols) := by
  have hok := remove_unnecessary_subcarriers_ok df channel_width config hw
  refine ⟨_, hok, ?_, ?_, ?_, ?_, ?_⟩
  · exact (drop_present_cols_sublist _ _).trans (guard_fold_cols_sublist _ _)
  · rw [drop_present_cols_rows_length, guard_fold_rows_length]
  · intro c hc
    have h1 := (mem_drop_present_cols _ _ c).mp hc
    rw [drop_present_cols_column _ _ c hc]
    exact guard_fold_column config.guard_bands df c h1.1
  · intro c hcdf hcout
    have := (remove_cols_mem df channel_width config hw _ hok c).not.mp hcout
    by_cases hg : ∀ se ∈ config.guard_bands, c ∉ rangeNames se
    · by_cases hp : c ∈ pilotNames config
      · exact Or.inr hp
      · exact absurd ⟨hcdf, hg, hp⟩ this
    · push_neg at hg
      exact Or.inl (by
        obtain ⟨se, hse, hc⟩ := hg
        exact ⟨se, hse, hc⟩)
  · intro hts
    rw [remove_cols_mem df channel_width config hw _ hok]
    refine ⟨hts, ?_, ?_⟩
    · unfold CHANNEL_CONFIGS at hw
      split at hw
      · cases hw
        decide
      · split at hw
        · cases hw
          decide
        · exact absurd hw (by simp)
    · unfold CHANNEL_CONFIGS at hw
      split at hw
      · cases hw
        decide
      · split at hw
        · cases hw
          decide
        · exact absurd hw (by simp)

/-- C10 witness: the filter on a concrete 20MHz table. -/
theorem C10_witness :
    ∃ out, remove_unnecessary_subcarriers dfC5 "20MHz" = .ok out ∧
      out.cols.Sublist dfC5.cols ∧
      out.rows.length = dfC5.rows.length ∧
      (∀ c ∈ out.cols, dfColumn out c = dfColumn dfC5 c) ∧
      (∀ c ∈ dfC5.cols, c ∉ out.cols →
        (∃ se ∈ [((-32 : ℤ), (-26 : ℤ)), ((27 : ℤ), (32 : ℤ))], c ∈ rangeNames se) ∨
          c ∈ pilotNames
            { guard_bands := [(-32, -26), (27, 32)], pilots := [-21, -7, 7, 21] }) ∧
      ("timestamp" ∈ dfC5.cols → "timestamp" ∈ out.cols) :=
  C10_filter_frame_effect dfC5 "20MHz"
    { guard_bands := [(-32, -26), (27, 32)], pilots := [-21, -7, 7, 21] } rfl

theorem fftfreq_getD (n : ℕ) (d : ℚ) (k : ℕ) (hk : k < n) :
    (fftfreq n d).getD k 0 =
      if k ≤ (n - 1) / 2 then (k : ℚ) / (d * n) else ((k : ℚ) - n) / (d * n) := by
  unfold fftfreq
  rw [List.getD_eq_getElem?_getD, List.getElem?_map, List.getElem?_range hk]
  rfl

/-- C3 (amended): for a frame with `T >= 2` rows the transformer keeps
exactly the strictly positive entries of `np.fft.fftfreq(T, d=1.0/T)` as
its frequency axis, and because the source passes `d = 1.0/T`, bin `k`
carries the numeric value `k` (or `k - T` on the negative half), not
`k/T`. -/
theorem C3_frequency_axis_amended (dftMag : List (Option Value) → ℕ → Option ℚ)
    (df : DataFrame Value) (out : DataFrame Value)
    (hout : apply_fourier_transform dftMag df = some out) :
    dfColumn out "frequency" =
      ((List.range df.rows.length).filter
          (fun k => decide
            (0 < (fftfreq df.rows.length (1 / (df.rows.length : ℚ))).getD k 0))).map
        (fun k => some (Value.num
          ((fftfreq df.rows.length (1 / (df.rows.length : ℚ))).getD k 0))) ∧
    2 ≤ df.rows.length ∧
    ∀ k, k < df.rows.length →
      (fftfreq df.rows.length (1 / (df.rows.length : ℚ))).getD k 0 =
        if k ≤ (df.rows.length - 1) / 2 then (k : ℚ) else (k : ℚ) - df.rows.length := by
  simp only [apply_fourier_transform] at hout
  split at hout
  · exact absurd hout (by simp)
  · split at hout
    · exact absurd hout (by simp)
    · split at hout
      · exact absurd hout (by simp)
      · rename_i hN
        injection hout with hinj
        subst hinj
        refine ⟨?_, by omega, ?_⟩
        · simp only [dfColumn, List.map_map]
          refine List.map_congr_left ?_
          intro k _
          simp [alookup]
        · intro k hk
          rw [fftfreq_getD _ _ _ hk]
          have hN0 : (df.rows.length : ℚ) ≠ 0 := Nat.cast_ne_zero.mpr (by omega)
          rw [one_div_mul_cancel hN0, div_one, div_one]

/-- C3 counterexample: for the concrete three-row column the claim
predicts frequency `1/3` at DFT bin 1, but the transformer's frequency
axis carries the value `1` there. -/
theorem C3_frequency_axis_cex :
    (apply_fourier_transform dmOne dfC3).map (fun out => dfColumn out "frequency") =
      some [some (Value.num 1)] ∧ (1 : ℚ) ≠ 1 / 3 := by
  constructor
  · with_unfolding_all rfl
  · norm_num

/-- C3 witness: the amended statement evaluated on the concrete
three-row column. -/
theorem C3_witness :
    ∃ out, apply_fourier_transform dmOne dfC3 = some out ∧
      (dfColumn out "frequency" =
        ((List.range dfC3.rows.length).filter
            (fun k => decide
              (0 < (fftfreq dfC3.rows.length (1 / (dfC3.rows.length : ℚ))).getD k 0))).map
          (fun k => some (Value.num
            ((fftfreq dfC3.rows.length (1 / (dfC3.rows.length : ℚ))).getD k 0))) ∧
      2 ≤ dfC3.rows.length ∧
      ∀ k, k < dfC3.rows.length →
        (fftfreq dfC3.rows.length (1 / (dfC3.rows.length : ℚ))).getD k 0 =
          if k ≤ (dfC3.rows.length - 1) / 2 then (k : ℚ)
          else (k : ℚ) - dfC3.rows.length) :=
  ⟨_, by with_unfolding_all rfl,
    C3_frequency_axis_amended dmOne dfC3 _ (by with_unfolding_all rfl)⟩

theorem alookup_map_cmplx (c : String) (l : List (String × CsiSample)) :
    alookup c (l.map (fun sv => (sv.1, Value.cmplx sv.2))) =
      (alookup c l).map Value.cmplx := by
  induction l with
  | nil => rfl
  | cons sv rest ih =>
    rw [List.map_cons, alookup, alookup]
    by_cases h : sv.1 = c
    · rw [if_pos h, if_pos h]
      rfl
    · rw [if_neg h, if_neg h]
      exact ih

/-- C4 (amended): the assembler never raises on mismatched column sets;
it zips the timestamp list with the decoded frames, keeps every frame's
own cells, and leaves a NaN (absent) cell for any column a frame does
not expose; it returns nothing only for an empty decoded list. -/
theorem C4_mismatch_union_nan_amended (timestamps : List ℚ) (csi_data : List CsiPacket)
    (h : csi_data ≠ []) :
    ∃ df, convert_csi_to_dataframe timestamps csi_data = some df ∧
      df.rows.length = min timestamps.length csi_data.length ∧
      (∀ i, i < min timestamps.length csi_data.length →
        (df.rows[i]?).map (fun r => alookup "timestamp" r) =
          (timestamps[i]?).map (fun t => some (Value.num t))) ∧
      ∀ i, i < min timestamps.length csi_data.length → ∀ c, c ≠ "timestamp" →
        (df.rows[i]?).map (fun r => alookup c r) =
          (csi_data[i]?).map (fun pkt => (alookup c pkt.subcarriers).map Value.cmplx) := by
  have hne : ¬(csi_data.isEmpty = true) := by
    intro hemp
    exact h (List.isEmpty_iff.mp hemp)
  refine ⟨_, by rw [convert_csi_to_dataframe, if_neg hne], ?_, ?_, ?_⟩
  · simp [dfOfRecords, List.length_zip]
  · intro i hi
    have hzl : i < (timestamps.zip csi_data).length := by
      rw [List.length_zip]
      exact hi
    have hrl : i <
        (((timestamps.zip csi_data).map
          (fun tc => ("timestamp", Value.num tc.1) ::
            tc.2.subcarriers.map (fun sv => (sv.1, Value.cmplx sv.2)))).length) := by
      simpa using hzl
    rw [show (dfOfRecords ((timestamps.zip csi_data).map
        (fun tc => ("timestamp", Value.num tc.1) ::
          tc.2.subcarriers.map (fun sv => (sv.1, Value.cmplx sv.2))))).rows =
        ((timestamps.zip csi_data).map
          (fun tc => ("timestamp", Value.num tc.1) ::
            tc.2.subcarriers.map (fun sv => (sv.1, Value.cmplx sv.2)))) from rfl]
    rw [List.getElem?_eq_getElem hrl, List.getElem?_eq_getElem (lt_of_lt_of_le hi (min_le_left _ _))]
    rw [List.getElem_map, List.getElem_zip]
    simp [alookup]
  · intro i hi c hc
    have hzl : i < (timestamps.zip csi_data).length := by
      rw [List.length_zip]
      exact hi
    have hrl : i <
        (((timestamps.zip csi_data).map
          (fun tc => ("timestamp", Value.num tc.1) ::
            tc.2.subcarriers.map (fun sv => (sv.1, Value.cmplx sv.2)))).length) := by
      simpa using hzl
    rw [show (dfOfRecords ((timestamps.zip csi_data).map
        (fun tc => ("timestamp", Value.num tc.1) ::
          tc.2.subcarriers.map (fun sv => (sv.1, Value.cmplx sv.2))))).rows =
        ((timestamps.zip csi_data).map
          (fun tc => ("timestamp", Value.num tc.1) ::
            tc.2.subcarriers.map (fun sv => (sv.1, Value.cmplx sv.2)))) from rfl]
    rw [List.getElem?_eq_getElem hrl,
      List.getElem?_eq_getElem (lt_of_lt_of_le hi (min_le_right _ _))]
    rw [List.getElem_map, List.getElem_zip]
    simp only [Option.map_some']
    simp only [alookup]
    rw [if_neg (fun hts => hc hts.symm)]
    exact congrArg some (alookup_map_cmplx c _)

/-- C4 counterexample: two decoded frames exposing different subcarrier
column sets are assembled into a table (no exception of any kind), the
column set is unioned and the missing cell is NaN. -/
theorem C4_mismatch_no_error_cex :
    convert_csi_to_dataframe [0, 1] [csiP1, csiP2] =
      some { cols := ["timestamp", "1", "2"],
             rows := [[("timestamp", Value.num 0), ("1", Value.cmplx sampleSample)],
                      [("timestamp", Value.num 1), ("2", Value.cmplx sampleSample)]] } ∧
    alookup "2" [("timestamp", Value.num 0), ("1", Value.cmplx sampleSample)] = none := by
  constructor
  · with_unfolding_all rfl
  · rfl

/-- C4 witness: the amended statement applied to the two mismatched
frames. -/
theorem C4_witness :
    ∃ df, convert_csi_to_dataframe [0, 1] [csiP1, csiP2] = some df ∧
      df.rows.length = min ([(0 : ℚ), 1].length) ([csiP1, csiP2].length) ∧
      (∀ i, i < min ([(0 : ℚ), 1].length) ([csiP1, csiP2].length) →
        (df.rows[i]?).map (fun r => alookup "timestamp" r) =
          (([(0 : ℚ), 1])[i]?).map (fun t => some (Value.num t))) ∧
      ∀ i, i < min ([(0 : ℚ), 1].length) ([csiP1, csiP2].length) → ∀ c, c ≠ "timestamp" →
        (df.rows[i]?).map (fun r => alookup c r) =
          (([csiP1, csiP2])[i]?).map
            (fun pkt => (alookup c pkt.subcarriers).map Value.cmplx) :=
  C4_mismatch_union_nan_amended [0, 1] [csiP1, csiP2] (List.cons_ne_nil _ _)

/-- C6 failing input evaluated: a payload of accepted length whose
normal amplitude draw for subcarrier 1 is `-1/2` yields a decoded
estimate whose stored sample at index 1 has a negative amplitude,
violating the `amplitude >= 0` contract; index 0 is indeed never
populated. -/
theorem C6_negative_amplitude_bug :
    (parse_csi_packet pktC6).map
        (fun pkt => (alookup "1" pkt.subcarriers, alookup "0" pkt.subcarriers)) =
      some (some { amplitude := -(1 / 2), phase := 0 }, none) ∧
    ({ amplitude := -(1 / 2), phase := 0 } : CsiSample).amplitude < 0 := by
  constructor
  · with_unfolding_all rfl
  · norm_num

/-- C7 (amended): when the current and baseline spectra have the same
bin count every shared non-frequency column receives a cosine score,
but when the bin counts differ the comparator raises sklearn's
dimension-mismatch `ValueError` at the first shared column instead of
skipping it (every column of one frame has the frame's own row count,
so the mismatch is all-or-nothing). -/
theorem C7_similarity_amended (kernel : List (Option Value) → List (Option Value) → ℚ)
    (cur bas : DataFrame Value) :
    (cur.rows.length = bas.rows.length →
      ∃ sel sims, compute_similarity_and_select_subcarriers kernel cur bas = .ok (sel, sims) ∧
        ∀ c ∈ cur.cols, c ≠ "frequency" → c ∈ bas.cols →
          alookup c sims = some (kernel (dfColumn cur c) (dfColumn bas c))) ∧
    (cur.rows.length ≠ bas.rows.length →
      (∃ c ∈ cur.cols, c ≠ "frequency" ∧ c ∈ bas.cols) →
      compute_similarity_and_select_subcarriers kernel cur bas =
        .error (.valueError "Incompatible dimension for X and Y matrices")) := by
  constructor
  · intro h
    have hf := similarity_fold_ok kernel cur bas h
      (cur.cols.filter (fun c => decide (c ≠ "frequency"))) []
    refine ⟨(((((cur.cols.filter (fun c => decide (c ≠ "frequency"))).filter
        (fun c => decide (c ∈ bas.cols))).map
        (fun c => (c, kernel (dfColumn cur c) (dfColumn bas c)))).mergeSort
          (fun a b => decide (a.2 ≤ b.2))).take TOP_SUBCARRIERS).map (fun p => p.1),
      ((cur.cols.filter (fun c => decide (c ≠ "frequency"))).filter
        (fun c => decide (c ∈ bas.cols))).map
        (fun c => (c, kernel (dfColumn cur c) (dfColumn bas c))), ?_, ?_⟩
    · simp only [compute_similarity_and_select_subcarriers]
      rw [hf]
      rfl
    · intro c hc hcf hcb
      apply alookup_map_self (fun c => kernel (dfColumn cur c) (dfColumn bas c))
      exact List.mem_filter.mpr
        ⟨List.mem_filter.mpr ⟨hc, by simpa using hcf⟩, by simpa using hcb⟩
  · intro h hex
    obtain ⟨c, hc, hcf, hcb⟩ := hex
    have he := similarity_fold_error kernel cur bas h
      (cur.cols.filter (fun c => decide (c ≠ "frequency"))) []
      ⟨c, List.mem_filter.mpr ⟨hc, by simpa using hcf⟩, hcb⟩
    simp only [compute_similarity_and_select_subcarriers]
    rw [he]
    rfl

/-- C7 counterexample: a column shared by both spectra whose magnitude
vectors have different lengths makes the comparator raise (the run
fails); it is not skipped. -/
theorem C7_mismatched_length_raises_cex :
    compute_similarity_and_select_subcarriers kZero dfCur dfBasShort =
      .error (.valueError "Incompatible dimension for X and Y matrices") := by
  with_unfolding_all rfl

/-- C7 witness: both branches of the amended statement on concrete
spectra. -/
theorem C7_witness :
    (∃ sel sims, compute_similarity_and_select_subcarriers kZero dfCur dfBasOk =
        .ok (sel, sims) ∧
      ∀ c ∈ dfCur.cols, c ≠ "frequency" → c ∈ dfBasOk.cols →
        alookup c sims = some (kZero (dfColumn dfCur c) (dfColumn dfBasOk c))) ∧
    compute_similarity_and_select_subcarriers kZero dfCur dfBasShort =
      .error (.valueError "Incompatible dimension for X and Y matrices") := by
  constructor
  · exact (C7_similarity_amended kZero dfCur dfBasOk).1 (by with_unfolding_all rfl)
  · refine (C7_similarity_amended kZero dfCur dfBasShort).2 ?_ ?_
    · intro hlen
      rw [show dfCur.rows.length = 2 from rfl, show dfBasShort.rows.length = 1 from rfl] at hlen
      exact absurd hlen (by norm_num)
    · refine ⟨"1", ?_, ?_, ?_⟩
      · exact List.mem_cons_of_mem _ (List.mem_cons_self _ _)
      · intro habs
        exact absurd habs (by decide)
      · exact List.mem_cons_self _ _

/-- C9: the assembler pairs the i-th decoded estimate with the i-th
timestamp of the full frames-of-interest list.  The estimate at row `i`
actually originates from the frame at position `o >= i`, and `o = i` for
every row exactly when every earlier frame of interest decoded; hence as
soon as one frame fails to decode, later rows carry the capture
timestamp of an earlier frame instead of their own frame's. -/
theorem C9_timestamp_misalignment (pkts : List Packet) (i : ℕ)
    (hi : i < ((udpFrames pkts).filterMap decodeOf).length) :
    ∃ df, convert_csi_to_dataframe (extract_csi_from_pcap pkts).1
        (extract_csi_from_pcap pkts).2 = some df ∧
      df.rows.length = ((udpFrames pkts).filterMap decodeOf).length ∧
      ∃ o, ∃ (ho : o < (udpFrames pkts).length) (hio : i ≤ o),
        decodeOf ((udpFrames pkts).get ⟨o, ho⟩) =
          ((udpFrames pkts).filterMap decodeOf)[i]? ∧
        (df.rows[i]?).map (fun r => alookup "timestamp" r) =
          some (some (Value.num
            (((udpFrames pkts).get ⟨i, lt_of_le_of_lt hio ho⟩).time))) ∧
        ((∀ j, (hj : j < o) →
            (decodeOf ((udpFrames pkts).get ⟨j, Nat.lt_trans hj ho⟩)).isSome) ↔ i = o) := by
  have hE := extract_eq pkts
  obtain ⟨o, ho, h1, h2, h3⟩ := filterMap_get_source decodeOf (udpFrames pkts) i hi
  have hnil : ((udpFrames pkts).filterMap decodeOf) ≠ [] :=
    List.ne_nil_of_length_pos (Nat.lt_of_le_of_lt (Nat.zero_le i) hi)
  have hconv : convert_csi_to_dataframe (extract_csi_from_pcap pkts).1
      (extract_csi_from_pcap pkts).2 = some (dfOfRecords
        ((((udpFrames pkts).map (fun p => p.time)).zip
            ((udpFrames pkts).filterMap decodeOf)).map
          (fun tc => ("timestamp", Value.num tc.1) ::
            tc.2.subcarriers.map (fun sv => (sv.1, Value.cmplx sv.2))))) := by
    rw [hE]
    rw [convert_csi_to_dataframe, if_neg (fun hemp => hnil (List.isEmpty_iff.mp hemp))]
  have hminr : min ((udpFrames pkts).map (fun p => p.time)).length
      ((udpFrames pkts).filterMap decodeOf).length =
      ((udpFrames pkts).filterMap decodeOf).length := by
    rw [List.length_map]
    exact min_eq_right (List.length_filterMap_le decodeOf (udpFrames pkts))
  refine ⟨_, hconv, ?_, o, ho, h3, h1, ?_, ?_⟩
  · show ((((udpFrames pkts).map (fun p => p.time)).zip
        ((udpFrames pkts).filterMap decodeOf)).map
          (fun tc => ("timestamp", Value.num tc.1) ::
            tc.2.subcarriers.map (fun sv => (sv.1, Value.cmplx sv.2)))).length = _
    rw [List.length_map, List.length_zip, hminr]
  · rw [show (dfOfRecords ((((udpFrames pkts).map (fun p => p.time)).zip
        ((udpFrames pkts).filterMap decodeOf)).map
          (fun tc => ("timestamp", Value.num tc.1) ::
            tc.2.subcarriers.map (fun sv => (sv.1, Value.cmplx sv.2))))).rows =
        ((((udpFrames pkts).map (fun p => p.time)).zip
          ((udpFrames pkts).filterMap decodeOf)).map
          (fun tc => ("timestamp", Value.num tc.1) ::
            tc.2.subcarriers.map (fun sv => (sv.1, Value.cmplx sv.2)))) from rfl]
    have hzl : i < ((((udpFrames pkts).map (fun p => p.time)).zip
        ((udpFrames pkts).filterMap decodeOf)).map
          (fun tc => ("timestamp", Value.num tc.1) ::
            tc.2.subcarriers.map (fun sv => (sv.1, Value.cmplx sv.2)))).length := by
      rw [List.length_map, List.length_zip, hminr]
      exact hi
    rw [List.getElem?_eq_getElem hzl, List.getElem_map, List.getElem_zip]
    simp only [Option.map_some']
    simp only [alookup, if_pos rfl]
    rw [List.getElem_map]
    rfl
  · exact countP_take_eq_iff (fun a => (decodeOf a).isSome) (udpFrames pkts) o i ho h2

/-- C9 witness: the misalignment statement applied to a concrete capture
whose middle frame of interest is undecodable, at row 1. -/
theorem C9_witness :
    ∃ df, convert_csi_to_dataframe (extract_csi_from_pcap pktsC9).1
        (extract_csi_from_pcap pktsC9).2 = some df ∧
      df.rows.length = ((udpFrames pktsC9).filterMap decodeOf).length ∧
      ∃ o, ∃ (ho : o < (udpFrames pktsC9).length) (hio : 1 ≤ o),
        decodeOf ((udpFrames pktsC9).get ⟨o, ho⟩) =
          ((udpFrames pktsC9).filterMap decodeOf)[1]? ∧
        (df.rows[1]?).map (fun r => alookup "timestamp" r) =
          some (some (Value.num
            (((udpFrames pktsC9).get ⟨1, lt_of_le_of_lt hio ho⟩).time))) ∧
        ((∀ j, (hj : j < o) →
            (decodeOf ((udpFrames pktsC9).get ⟨j, Nat.lt_trans hj ho⟩)).isSome) ↔ 1 = o) :=
  C9_timestamp_misalignment pktsC9 1 (by decide)

set_option maxRecDepth 200000 in
/-- C1 evaluated against the code: the whole pipeline result is
independent of the metadata's hardware-selected subcarrier list (the
source never reads `metadata['selected_subcarriers']`), and on a
concrete run carrying the non-empty hardware list of
`test_changes.py` case 1 with no baseline, the run succeeds with a
SelectedSubcarrierSet different from that list (the full retained
column set). -/
theorem C1_hardware_list_never_used :
    (∀ (kernel : List (Option Value) → List (Option Value) → ℚ)
       (dftMag : List (Option Value) → ℕ → Option ℚ)
       (packets : List Packet) (baseline_fft : Option (DataFrame Value))
       (metadata : Metadata) (now : ℚ) (hw1 hw2 : Option (List String)),
      process_csi_file kernel dftMag packets baseline_fft
          { metadata with selected_subcarriers := hw1 } now =
        process_csi_file kernel dftMag packets baseline_fft
          { metadata with selected_subcarriers := hw2 } now) ∧
    (process_csi_file kZero dmOne samplePackets none mdHw 0).map
        (fun r => decide (r.selected_subcarriers = hwList)) = .ok false := by
  constructor
  · intro kernel dftMag packets baseline_fft metadata now hw1 hw2
    rfl
  · with_unfolding_all rfl

/-- C2 (amended): a run in which the peak search returns the all-unset
triple still completes successfully, and the result carries the numeric
sentinel `0.0` in its breathing-rate, dominant-frequency and
peak-magnitude fields (the source coalesces `None` to `0.0` at lines
380-382) rather than leaving them unset. -/
theorem C2_no_peak_run_succeeds_with_zero_fields
    (kernel : List (Option Value) → List (Option Value) → ℚ)
    (dftMag : List (Option Value) → ℕ → Option ℚ)
    (packets : List Packet) (baseline_fft : Option (DataFrame Value))
    (metadata : Metadata) (now : ℚ)
    (ts : List ℚ) (cs : List CsiPacket) (fft_df : DataFrame Value)
    (sel : List String) (sims : List (String × ℚ))
    (hp : pipelineToSelection kernel dftMag packets baseline_fft metadata =
      .ok (ts, cs, fft_df, sel, sims))
    (hnopeak : find_peak_spectrum fft_df sel = .ok (none, none, none)) :
    ∃ r, process_csi_file kernel dftMag packets baseline_fft metadata now = .ok r ∧
      r.breathing_rate = 0 ∧ r.peak_frequency = 0 ∧ r.peak_height = 0 ∧
      r.selected_subcarriers = sel := by
  refine ⟨{ device_id := metadata.device_id.getD "unknown",
            timestamp := metadata.timestamp.getD now,
            collection_duration := metadata.collection_duration.getD 60,
            channel_width := metadata.channel_width.getD "80MHz",
            location := metadata.location.getD "unknown",
            breathing_rate := 0, peak_frequency := 0, peak_height := 0,
            selected_subcarriers := sel, similarities := sims,
            packet_count := ts.length, csi_data_count := cs.length },
    ?_, rfl, rfl, rfl, rfl⟩
  unfold process_csi_file
  rw [hp]
  show (find_peak_spectrum fft_df sel).bind _ = _
  rw [hnopeak]
  rfl

set_option maxRecDepth 200000 in
/-- C2 counterexample to the claim as stated: a concrete run in which no
peak qualifies completes successfully, yet its dominant-frequency,
peak-magnitude and breathing-rate fields are the present numeric value
`0.0`, not absent/None as the claim requires. -/
theorem C2_no_peak_fields_are_zero_cex :
    (pipelineToSelection kZero dmOne samplePackets none mdHw).map
        (fun t => find_peak_spectrum t.2.2.1 t.2.2.2.1) =
      .ok (.ok (none, none, none)) ∧
    (process_csi_file kZero dmOne samplePackets none mdHw 0).map
        (fun r => (r.breathing_rate, r.peak_frequency, r.peak_height)) = .ok (0, 0, 0) := by
  constructor
  · with_unfolding_all rfl
  · with_unfolding_all rfl

set_option maxRecDepth 200000 in
/-- C2 witness: the amended statement on the concrete no-peak run. -/
theorem C2_witness :
    ∃ r, process_csi_file kZero dmOne samplePackets none mdHw 0 = .ok r ∧
      r.breathing_rate = 0 ∧ r.peak_frequency = 0 ∧ r.peak_height = 0 := by
  obtain ⟨r, h1, h2, h3, h4, _⟩ :=
    C2_no_peak_run_succeeds_with_zero_fields kZero dmOne samplePackets none mdHw 0
      _ _ _ _ _ (by with_unfolding_all rfl) (by with_unfolding_all rfl)
  exact ⟨r, h1, h2, h3, h4⟩
